import Mathlib

/-!
Verification development for the collision-map subsystem of the
`link_bot_gazebo` package (files `collision_map_plugin.h`,
`tether_plugin.h`).  The repository's `src/` tree contains only the
plugin headers; the bodies of `Load`, `OnWriteSDF` and the distance /
gradient computation live in a translation unit that is not part of
`src/`, so those algorithms are modelled here from the specification
(each such definition says so in its doc comment).  Facts that are
visible in the headers themselves — the `static const` sentinel cells
`oob_value` / `occupied_value` and the `bool ready_{false}` member
initializer — are embedded directly from the header.
-/

/-- A voxel coordinate: an integer triple (i, j, k). -/
abbrev Coord : Type := ℕ × ℕ × ℕ

/-- A world-space point, coordinates in meters (modelled as rationals). -/
abbrev Point : Type := ℚ × ℚ × ℚ

/-- Classification of a voxel.  Modelled from the spec: occupied / free /
out-of-bounds (OOB). -/
inductive CellClass : Type
  | Occupied : CellClass
  | Free : CellClass
  | OOB : CellClass
deriving DecidableEq

/-- `sdf_tools::COLLISION_CELL`: an occupancy value plus a component tag.
Modelled from the spec (the `sdf_tools` package itself is not part of this
repository): occupancy in [0,1] for ordinary cells, reserved constants for
the sentinels. -/
structure COLLISION_CELL : Type where
  occupancy : ℚ
  component : ℕ
deriving DecidableEq

/-- The payload of a `link_bot_gazebo::WriteSDF` build request.
Modelled from the spec: `{region_origin, resolution, dimensions,
oob_value, occupied_value}` (the `.msg` definition is not under `src/`). -/
structure WriteSDF : Type where
  region_origin : Point
  resolution : ℚ
  nx : ℕ
  ny : ℕ
  nz : ℕ
  oob_value : COLLISION_CELL
  occupied_value : COLLISION_CELL
deriving DecidableEq

/-- The caller-supplied navigable extent of the world: an axis-aligned
box.  Modelled from the spec. -/
structure Extent : Type where
  lo : Point
  hi : Point
deriving DecidableEq

/-- Result of one Geometric Probe ray query (`gazebo::physics::RayShape`,
header member `ray`).  Modelled from the spec: hit flag and first-hit
distance along the ray. -/
structure ProbeResult : Type where
  hit : Bool
  distance : ℚ
deriving DecidableEq

/-- The probe pattern anchored at a world point: the results of the short
rays issued from that point.  Modelled from the spec; the exact ray
pattern is a tunable parameter, so it is kept abstract as a function from
the anchor point to the list of probe results. -/
abbrev ProbePattern : Type := Point → List ProbeResult

namespace CollisionMapPlugin

/-- The OOB sentinel cell.  The header declares
`static const sdf_tools::COLLISION_CELL oob_value;` — a class-level
constant, independent of any request.  Its numeric value is defined in
the missing translation unit; modelled from the spec as a reserved
constant dominating every real occupancy value. -/
def oob_value : COLLISION_CELL := ⟨-10000, 0⟩

/-- The fully-occupied sentinel cell.  The header declares
`static const sdf_tools::COLLISION_CELL occupied_value;` — a class-level
constant, independent of any request.  Modelled from the spec as the
fully-occupied reserved constant. -/
def occupied_value : COLLISION_CELL := ⟨1, 0⟩

end CollisionMapPlugin

/-- All voxel coordinates of an `nx × ny × nz` lattice. -/
def allCoords (nx ny nz : ℕ) : List Coord :=
  (List.range nx).flatMap fun i =>
    (List.range ny).flatMap fun j =>
      (List.range nz).map fun k => (i, j, k)

theorem mem_allCoords {nx ny nz : ℕ} {c : Coord} :
    c ∈ allCoords nx ny nz ↔ c.1 < nx ∧ c.2.1 < ny ∧ c.2.2 < nz := by
  obtain ⟨i, j, k⟩ := c
  constructor
  · intro h
    simp only [allCoords, List.mem_flatMap, List.mem_map, List.mem_range] at h
    obtain ⟨a, ha, b, hb, d, hd, heq⟩ := h
    obtain ⟨rfl, rfl, rfl⟩ := Prod.mk.injEq .. ▸ heq
    · exact ⟨ha, hb, hd⟩
  · rintro ⟨hi, hj, hk⟩
    simp only [allCoords, List.mem_flatMap, List.mem_map, List.mem_range]
    exact ⟨i, hi, j, hj, k, hk, rfl⟩

/-- World-space center of a voxel: origin plus (index + ½)·resolution on
each axis.  Modelled from the spec ("compute its world-space center"). -/
def voxelCenter (msg : WriteSDF) (c : Coord) : Point :=
  ( msg.region_origin.1 + (c.1 + 1/2) * msg.resolution
  , msg.region_origin.2.1 + (c.2.1 + 1/2) * msg.resolution
  , msg.region_origin.2.2 + (c.2.2 + 1/2) * msg.resolution )

/-- Whether a world point lies inside the navigable extent. -/
def inExtent (e : Extent) (p : Point) : Prop :=
  e.lo.1 ≤ p.1 ∧ p.1 ≤ e.hi.1 ∧
  e.lo.2.1 ≤ p.2.1 ∧ p.2.1 ≤ e.hi.2.1 ∧
  e.lo.2.2 ≤ p.2.2 ∧ p.2.2 ≤ e.hi.2.2

instance (e : Extent) (p : Point) : Decidable (inExtent e p) := by
  unfold inExtent
  infer_instance

/-- Whether the probe results at a voxel center indicate occupancy:
some probe reports a hit at distance less than half the resolution.
Modelled from the spec. -/
def probeIndicatesOccupied (res : ℚ) (rs : List ProbeResult) : Bool :=
  rs.any fun r => r.hit && decide (r.distance < res / 2)

/-- Occupancy classification of one voxel.  Modelled from the spec:
OOB when the center is outside the navigable extent; otherwise Occupied
exactly when some probe reports a near hit, Free otherwise. -/
def classifyVoxel (ray : ProbePattern) (e : Extent) (msg : WriteSDF) (c : Coord) :
    CellClass :=
  if inExtent e (voxelCenter msg c) then
    if probeIndicatesOccupied msg.resolution (ray (voxelCenter msg c)) then
      CellClass.Occupied
    else CellClass.Free
  else CellClass.OOB

/-- An Occupancy Grid: immutable origin / resolution / dimensions plus a
per-voxel classification. -/
structure OccGrid : Type where
  nx : ℕ
  ny : ℕ
  nz : ℕ
  resolution : ℚ
  origin : Point
  cls : Coord → CellClass

/-- The coordinate list of a grid. -/
def OccGrid.coordsList (g : OccGrid) : List Coord :=
  allCoords g.nx g.ny g.nz

/-- The Occupancy Grid Builder.  Modelled from the spec: one
classification per voxel of the requested lattice, driven by the
Geometric Probe. -/
def buildOccGrid (ray : ProbePattern) (e : Extent) (msg : WriteSDF) : OccGrid :=
  { nx := msg.nx
    ny := msg.ny
    nz := msg.nz
    resolution := msg.resolution
    origin := msg.region_origin
    cls := fun c => classifyVoxel ray e msg c }

/-- The `COLLISION_CELL` actually stored for a voxel of the collision
map.  The sentinel cells are the plugin's `static const` members (from
the header), NOT values taken from the request payload; an ordinary free
cell is modelled from the spec as occupancy 0. -/
def collisionMapCell (ray : ProbePattern) (e : Extent) (msg : WriteSDF) (c : Coord) :
    COLLISION_CELL :=
  match (buildOccGrid ray e msg).cls c with
  | CellClass.OOB => CollisionMapPlugin.oob_value
  | CellClass.Occupied => CollisionMapPlugin.occupied_value
  | CellClass.Free => ⟨0, 0⟩

/-- Squared Euclidean distance between two voxel coordinates, in cell
units. -/
def sqDistCells (a b : Coord) : ℕ :=
  ((a.1 : ℤ) - b.1).natAbs ^ 2 + ((a.2.1 : ℤ) - b.2.1).natAbs ^ 2 +
    ((a.2.2 : ℤ) - b.2.2).natAbs ^ 2

/-- Minimum of `f` over a list of coordinates (`none` on the empty
list). -/
def minOver (f : Coord → ℕ) : List Coord → Option ℕ
  | [] => none
  | c :: rest =>
    match minOver f rest with
    | none => some (f c)
    | some m => some (min (f c) m)

theorem minOver_eq_none {f : Coord → ℕ} {l : List Coord} :
    minOver f l = none ↔ l = [] := by
  cases l with
  | nil => simp [minOver]
  | cons c rest =>
    cases h : minOver f rest <;> simp [minOver, h]

theorem minOver_le {f : Coord → ℕ} {l : List Coord} {m : ℕ}
    (hm : minOver f l = some m) : ∀ c ∈ l, m ≤ f c := by
  induction l generalizing m with
  | nil => simp [minOver] at hm
  | cons c rest ih =>
    intro x hx
    rcases List.mem_cons.mp hx with rfl | hx2
    · cases h : minOver f rest with
      | none => simp [minOver, h] at hm; omega
      | some m2 => simp [minOver, h] at hm; omega
    · cases h : minOver f rest with
      | none =>
        rw [minOver_eq_none] at h
        subst h
        simp at hx2
      | some m2 =>
        simp [minOver, h] at hm
        have := ih h x hx2
        omega

theorem minOver_attained {f : Coord → ℕ} {l : List Coord} {m : ℕ}
    (hm : minOver f l = some m) : ∃ c ∈ l, f c = m := by
  induction l generalizing m with
  | nil => simp [minOver] at hm
  | cons c rest ih =>
    cases h : minOver f rest with
    | none =>
      simp [minOver, h] at hm
      exact ⟨c, List.mem_cons_self c rest, hm⟩
    | some m2 =>
      simp [minOver, h] at hm
      rcases le_total (f c) m2 with hle | hle
      · refine ⟨c, List.mem_cons_self c rest, ?_⟩
        omega
      · obtain ⟨x, hx, hfx⟩ := ih h
        refine ⟨x, List.mem_cons_of_mem c hx, ?_⟩
        omega

theorem minOver_isSome {f : Coord → ℕ} {l : List Coord} {c : Coord}
    (hc : c ∈ l) : ∃ m, minOver f l = some m := by
  cases l with
  | nil => simp at hc
  | cons x rest =>
    cases h : minOver f rest <;> simp [minOver, h]

/-- Cells of a grid having a given classification. -/
def OccGrid.cells (g : OccGrid) (t : CellClass) : List Coord :=
  g.coordsList.filter fun c => decide (g.cls c = t)

theorem mem_cells {g : OccGrid} {t : CellClass} {c : Coord} :
    c ∈ g.cells t ↔ c ∈ g.coordsList ∧ g.cls c = t := by
  simp [OccGrid.cells]

/-- Squared cell distance from `c` to the nearest cell of class `t`
(`none` when the grid has no cell of that class).  Modelled from the
spec: the distance transform seeds from exactly the cells of the
relevant class; OOB cells are never seeds. -/
def nearestSqDist (g : OccGrid) (c : Coord) (t : CellClass) : Option ℕ :=
  minOver (sqDistCells c) (g.cells t)

/-- A signed-distance value: the OOB sentinel, or a signed squared cell
distance (`free d` stands for +resolution·√d meters, `occ d` for
−resolution·√d meters). -/
inductive SdfVal : Type
  | oob : SdfVal
  | free : ℕ → SdfVal
  | occ : ℕ → SdfVal
deriving DecidableEq

/-- The OOB sentinel distance written into the SDF.  Modelled from the
spec: a large fixed constant dominating every real distance in the
region. -/
def oobSentinelDistance : ℚ := 10000

/-- The real number of meters denoted by an `SdfVal` at a given
resolution. -/
def SdfVal.metersIs (res : ℚ) : SdfVal → ℝ → Prop
  | SdfVal.oob, x => x = (oobSentinelDistance : ℝ)
  | SdfVal.free d, x => x = (res : ℝ) * Real.sqrt (d : ℝ)
  | SdfVal.occ d, x => x = -((res : ℝ) * Real.sqrt (d : ℝ))

/-- The Distance Field Engine at one cell.  Modelled from the spec:
Free cells get the (positive) distance to the nearest Occupied cell,
Occupied cells the negative distance to the nearest Free cell, OOB cells
the OOB sentinel; a cell whose opposite class is empty also falls back
to the sentinel. -/
def sdfCell (g : OccGrid) (c : Coord) : SdfVal :=
  match g.cls c with
  | CellClass.OOB => SdfVal.oob
  | CellClass.Free =>
    match nearestSqDist g c CellClass.Occupied with
    | none => SdfVal.oob
    | some d => SdfVal.free d
  | CellClass.Occupied =>
    match nearestSqDist g c CellClass.Free with
    | none => SdfVal.oob
    | some d => SdfVal.occ d

/-- `sdf_tools::SignedDistanceField` (header member `sdf_`): shape data
plus one signed distance value per voxel. -/
structure SignedDistanceField : Type where
  nx : ℕ
  ny : ℕ
  nz : ℕ
  resolution : ℚ
  origin : Point
  vals : Coord → SdfVal

/-- The Distance Field Engine.  Modelled from the spec: shape copied
from the source grid, `sdfCell` at every voxel. -/
def computeSDF (g : OccGrid) : SignedDistanceField :=
  { nx := g.nx
    ny := g.ny
    nz := g.nz
    resolution := g.resolution
    origin := g.origin
    vals := fun c => sdfCell g c }

/-- A scalar field over a lattice, with an OOB mask — the view of an SDF
consumed by the Gradient Field Engine. -/
structure ScalarField : Type where
  nx : ℕ
  ny : ℕ
  nz : ℕ
  resolution : ℚ
  origin : Point
  val : Coord → ℚ
  isOOB : Coord → Bool

/-- The value a neighbor index `j` contributes to the finite difference
centered at index `i`.  Modelled from the spec: an OOB neighbor
contributes the center cell's own value (zero local contribution)
instead of the OOB sentinel magnitude. -/
def gradNeighbor (v : ℕ → ℚ) (oob : ℕ → Bool) (i j : ℕ) : ℚ :=
  if oob j then v i else v j

/-- One-axis finite difference of the Gradient Field Engine.  Modelled
from the spec: centered difference `(v (i+1) - v (i-1)) / (2·res)` at
interior indices, one-sided difference at the outermost layer, with
neighbor values taken through `gradNeighbor`. -/
def gradComponent (n : ℕ) (res : ℚ) (v : ℕ → ℚ) (oob : ℕ → Bool) (i : ℕ) : ℚ :=
  if n ≤ 1 then 0
  else if i = 0 then (gradNeighbor v oob 0 1 - gradNeighbor v oob 0 0) / res
  else if i = n - 1 then
    (gradNeighbor v oob (n - 1) (n - 1) - gradNeighbor v oob (n - 1) (n - 2)) / res
  else (gradNeighbor v oob i (i + 1) - gradNeighbor v oob i (i - 1)) / (2 * res)

/-- The gradient 3-vector at one voxel: the per-axis finite difference
assembled componentwise.  Modelled from the spec. -/
def gradAt (f : ScalarField) (c : Coord) : ℚ × ℚ × ℚ :=
  match c with
  | (i, j, k) =>
    ( gradComponent f.nx f.resolution (fun t => f.val (t, j, k)) (fun t => f.isOOB (t, j, k)) i
    , gradComponent f.ny f.resolution (fun t => f.val (i, t, k)) (fun t => f.isOOB (i, t, k)) j
    , gradComponent f.nz f.resolution (fun t => f.val (i, j, t)) (fun t => f.isOOB (i, j, t)) k )

/-- The gradient field (header member `sdf_gradient_`, a
`VoxelGrid::VoxelGrid<std::vector<double>>`): shape data plus one
3-vector per voxel. -/
structure GradientField : Type where
  nx : ℕ
  ny : ℕ
  nz : ℕ
  resolution : ℚ
  origin : Point
  vec : Coord → ℚ × ℚ × ℚ

/-- Rational stand-in for the numeric value of an `SdfVal`, used by the
gradient stage (signed squared magnitude for real cells, the sentinel
for OOB cells); shape and sentinel policy of the gradient stage do not
depend on the exact magnitudes. -/
def sdfProxyVal : SdfVal → ℚ
  | SdfVal.oob => oobSentinelDistance
  | SdfVal.free d => (d : ℚ)
  | SdfVal.occ d => -(d : ℚ)

/-- The scalar-field view of an SDF consumed by the gradient stage. -/
def SignedDistanceField.toScalarField (s : SignedDistanceField) : ScalarField :=
  { nx := s.nx
    ny := s.ny
    nz := s.nz
    resolution := s.resolution
    origin := s.origin
    val := fun c => sdfProxyVal (s.vals c)
    isOOB := fun c => decide (s.vals c = SdfVal.oob) }

/-- The Gradient Field Engine.  Modelled from the spec: shape copied
from the input field, `gradAt` at every voxel. -/
def computeGradientField (f : ScalarField) : GradientField :=
  { nx := f.nx
    ny := f.ny
    nz := f.nz
    resolution := f.resolution
    origin := f.origin
    vec := fun c => gradAt f c }

/-- The published snapshot: the grid together with the derived fields
(header members `sdf_` and `sdf_gradient_`). -/
structure Snapshot : Type where
  grid : OccGrid
  sdf_ : SignedDistanceField
  sdf_gradient_ : GradientField

/-- One complete build: grid → SDF → gradient, freshly allocated.
Modelled from the spec's data flow. -/
def buildSnapshot (g : OccGrid) : Snapshot :=
  { grid := g
    sdf_ := computeSDF g
    sdf_gradient_ := computeGradientField (computeSDF g).toScalarField }

/-- Map Session phases.  Modelled from the spec's lifecycle
`idle → building → ready`. -/
inductive Phase : Type
  | idle : Phase
  | building : Phase
  | ready : Phase
deriving DecidableEq

/-- The Map Session state: phase, generation counter, and the currently
published snapshot, if any.  Modelled from the spec. -/
structure MapSession : Type where
  phase : Phase
  generation : ℕ
  snapshot : Option Snapshot

/-- The readiness flag of the session, mirroring the header member
`bool ready_` of `CollisionMapPlugin`. -/
def MapSession.ready_ (s : MapSession) : Bool :=
  decide (s.phase = Phase.ready)

/-- The initial session.  The header initializes `bool ready_{false}`;
no snapshot exists before the first build. -/
def initSession : MapSession :=
  { phase := Phase.idle, generation := 0, snapshot := none }

/-- Session events.  Modelled from the spec: an inbound build request, a
successfully completed build (giving the finished grid), or a
probe/geometry failure. -/
inductive Event : Type
  | request : WriteSDF → Event
  | buildSuccess : OccGrid → Event
  | buildFailure : Event

/-- One transition of the Map Session Coordinator.  Modelled from the
spec: a request (re)starts a build at a fresh generation; a completed
build publishes a freshly built snapshot and enters `ready`; a failed
build returns to `idle` leaving the published snapshot untouched. -/
def step (s : MapSession) (e : Event) : MapSession :=
  match e with
  | Event.request _ =>
    { phase := Phase.building, generation := s.generation + 1, snapshot := s.snapshot }
  | Event.buildSuccess g =>
    match s.phase with
    | Phase.building =>
      { phase := Phase.ready, generation := s.generation, snapshot := some (buildSnapshot g) }
    | _ => s
  | Event.buildFailure =>
    match s.phase with
    | Phase.building =>
      { phase := Phase.idle, generation := s.generation, snapshot := s.snapshot }
    | _ => s

/-- Running a sequence of events from the initial session. -/
def run (es : List Event) : MapSession :=
  es.foldl step initSession

/-- Errors visible to the query side. -/
inductive QueryError : Type
  | notReady : QueryError
deriving DecidableEq

/-- Serving a query: the current snapshot while `ready`, `NotReady`
otherwise.  Modelled from the spec. -/
def query (s : MapSession) : Except QueryError Snapshot :=
  match s.snapshot, s.phase with
  | some snap, Phase.ready => Except.ok snap
  | _, _ => Except.error QueryError.notReady

/-- The request handler `CollisionMapPlugin::OnWriteSDF` (declared in
the header, body in the missing translation unit).  Modelled from the
spec: process the request through a complete successful build. -/
def OnWriteSDF (ray : ProbePattern) (e : Extent) (s : MapSession) (msg : WriteSDF) :
    MapSession :=
  step (step s (Event.request msg)) (Event.buildSuccess (buildOccGrid ray e msg))

set_option maxRecDepth 8000

/-- The 5×5×5 end-to-end scenario of the spec: resolution 0.1 m, single
occupied voxel at (2,2,2), all other voxels Free. -/
def demoGrid : OccGrid :=
  { nx := 5, ny := 5, nz := 5, resolution := 1/10, origin := (0, 0, 0),
    cls := fun c => if c = (2, 2, 2) then CellClass.Occupied else CellClass.Free }

/-- A small grid with an OOB cell at (0,0,0), an Occupied cell at
(1,0,0) and a Free cell at (2,0,0). -/
def demoGridOOB : OccGrid :=
  { nx := 3, ny := 1, nz := 1, resolution := 1/10, origin := (0, 0, 0),
    cls := fun c =>
      if c = (0, 0, 0) then CellClass.OOB
      else if c = (1, 0, 0) then CellClass.Occupied
      else CellClass.Free }

/-- A concrete build request. -/
def msg0 : WriteSDF :=
  { region_origin := (0, 0, 0), resolution := 1/10, nx := 1, ny := 1, nz := 1,
    oob_value := ⟨1/2, 7⟩, occupied_value := ⟨3/4, 9⟩ }

/-- A probe pattern that never hits. -/
def rayNone : ProbePattern := fun _ => []

/-- A probe pattern that always reports a hit at distance 0. -/
def rayHit : ProbePattern := fun _ => [⟨true, 0⟩]

/-- An extent containing no voxel center of `msg0`. -/
def extentEmpty : Extent := ⟨(1, 1, 1), (0, 0, 0)⟩

/-- A large extent containing every demo voxel center. -/
def extentBig : Extent := ⟨(-100, -100, -100), (100, 100, 100)⟩

theorem sdfCell_of_free {g : OccGrid} {c : Coord} (hcls : g.cls c = CellClass.Free)
    {d : ℕ} (hd : nearestSqDist g c CellClass.Occupied = some d) :
    sdfCell g c = SdfVal.free d := by
  simp [sdfCell, hcls, hd]

theorem sdfCell_of_occ {g : OccGrid} {c : Coord} (hcls : g.cls c = CellClass.Occupied)
    {d : ℕ} (hd : nearestSqDist g c CellClass.Free = some d) :
    sdfCell g c = SdfVal.occ d := by
  simp [sdfCell, hcls, hd]

theorem sdfCell_of_oob {g : OccGrid} {c : Coord} (hcls : g.cls c = CellClass.OOB) :
    sdfCell g c = SdfVal.oob := by
  simp [sdfCell, hcls]

theorem nearestSqDist_some {g : OccGrid} {c c0 : Coord} {t : CellClass}
    (h0 : c0 ∈ g.coordsList) (ht : g.cls c0 = t) :
    ∃ d, nearestSqDist g c t = some d := by
  exact minOver_isSome (mem_cells.mpr ⟨h0, ht⟩)

theorem nearestSqDist_le {g : OccGrid} {c : Coord} {t : CellClass} {d : ℕ}
    (hd : nearestSqDist g c t = some d) :
    ∀ c2 ∈ g.coordsList, g.cls c2 = t → d ≤ sqDistCells c c2 := by
  intro c2 h2 ht2
  exact minOver_le hd c2 (mem_cells.mpr ⟨h2, ht2⟩)

theorem nearestSqDist_attained {g : OccGrid} {c : Coord} {t : CellClass} {d : ℕ}
    (hd : nearestSqDist g c t = some d) :
    ∃ c2 ∈ g.coordsList, g.cls c2 = t ∧ sqDistCells c c2 = d := by
  obtain ⟨c2, h2, hf⟩ := minOver_attained hd
  obtain ⟨hmem, hcls⟩ := mem_cells.mp h2
  exact ⟨c2, hmem, hcls, hf⟩

/-- A Free cell's SDF value: the positive true Euclidean distance (in
meters, i.e. resolution·√(squared cell distance)) to its nearest
Occupied cell. -/
def FreeCellSdfOk (g : OccGrid) (c : Coord) : Prop :=
  ∃ d : ℕ, sdfCell g c = SdfVal.free d ∧
    (∀ c2 ∈ g.coordsList, g.cls c2 = CellClass.Occupied → d ≤ sqDistCells c c2) ∧
    (∃ c2 ∈ g.coordsList, g.cls c2 = CellClass.Occupied ∧ sqDistCells c c2 = d) ∧
    ∀ x : ℝ, SdfVal.metersIs g.resolution (sdfCell g c) x → 0 ≤ x

/-- An Occupied cell's SDF value: the negative true Euclidean distance
to its nearest Free cell. -/
def OccCellSdfOk (g : OccGrid) (c : Coord) : Prop :=
  ∃ d : ℕ, sdfCell g c = SdfVal.occ d ∧
    (∀ c2 ∈ g.coordsList, g.cls c2 = CellClass.Free → d ≤ sqDistCells c c2) ∧
    (∃ c2 ∈ g.coordsList, g.cls c2 = CellClass.Free ∧ sqDistCells c c2 = d) ∧
    ∀ x : ℝ, SdfVal.metersIs g.resolution (sdfCell g c) x → x ≤ 0

/-- The sign/distance specification of the SDF over a whole grid. -/
def SdfSignSpec (g : OccGrid) : Prop :=
  (∀ c ∈ g.coordsList, g.cls c = CellClass.Free → FreeCellSdfOk g c) ∧
  (∀ c ∈ g.coordsList, g.cls c = CellClass.Occupied → OccCellSdfOk g c)

/-- In the 5×5×5 scenario, the SDF at (0,0,0) denotes 0.1·√12 meters. -/
def DemoScenarioSdf : Prop :=
  SdfVal.metersIs demoGrid.resolution (sdfCell demoGrid (0, 0, 0))
    ((1/10 : ℝ) * Real.sqrt 12)

/-- C1: for every Occupancy Grid containing at least one Occupied and
one Free cell (at positive resolution), the SDF assigns each Free cell
the positive true Euclidean distance in meters to its nearest Occupied
cell and each Occupied cell the negative true Euclidean distance to its
nearest Free cell (so Free values are ≥ 0 and Occupied values are ≤ 0);
and in the 5×5×5 scenario with a single occupied voxel at (2,2,2) at
resolution 0.1 m, the SDF at (0,0,0) equals 0.1·√12. -/
theorem sdf_signs_and_euclidean (g : OccGrid)
    (hocc : ∃ c ∈ g.coordsList, g.cls c = CellClass.Occupied)
    (hfree : ∃ c ∈ g.coordsList, g.cls c = CellClass.Free)
    (hres : 0 < g.resolution) :
    SdfSignSpec g ∧ DemoScenarioSdf := by
  have hresR : (0 : ℝ) ≤ (g.resolution : ℝ) := by exact_mod_cast hres.le
  constructor
  · constructor
    · intro c hc hcls
      obtain ⟨c0, h0, ht0⟩ := hocc
      obtain ⟨d, hd⟩ := nearestSqDist_some (c := c) h0 ht0
      have hfreeCell := sdfCell_of_free hcls hd
      refine ⟨d, hfreeCell, nearestSqDist_le hd, ?_, ?_⟩
      · obtain ⟨c2, h2, ht2, hsq⟩ := nearestSqDist_attained hd
        exact ⟨c2, h2, ht2, hsq⟩
      · intro x hx
        rw [hfreeCell] at hx
        simp only [SdfVal.metersIs] at hx
        rw [hx]
        exact mul_nonneg hresR (Real.sqrt_nonneg _)
    · intro c hc hcls
      obtain ⟨c0, h0, ht0⟩ := hfree
      obtain ⟨d, hd⟩ := nearestSqDist_some (c := c) h0 ht0
      have hoccCell := sdfCell_of_occ hcls hd
      refine ⟨d, hoccCell, nearestSqDist_le hd, ?_, ?_⟩
      · obtain ⟨c2, h2, ht2, hsq⟩ := nearestSqDist_attained hd
        exact ⟨c2, h2, ht2, hsq⟩
      · intro x hx
        rw [hoccCell] at hx
        simp only [SdfVal.metersIs] at hx
        rw [hx]
        exact neg_nonpos.mpr (mul_nonneg hresR (Real.sqrt_nonneg _))
  · have h12 : sdfCell demoGrid (0, 0, 0) = SdfVal.free 12 := by decide
    show SdfVal.metersIs demoGrid.resolution (sdfCell demoGrid (0, 0, 0))
      ((1/10 : ℝ) * Real.sqrt 12)
    rw [h12]
    simp only [SdfVal.metersIs]
    norm_num [demoGrid]

/-- Witness for C1 at the 5×5×5 demo grid. -/
theorem sdf_signs_and_euclidean_witness : SdfSignSpec demoGrid ∧ DemoScenarioSdf :=
  sdf_signs_and_euclidean demoGrid
    ⟨(2, 2, 2), by decide, by decide⟩
    ⟨(0, 0, 0), by decide, by decide⟩
    (by norm_num [demoGrid])

/-- The per-axis behavior of the gradient engine claimed by the spec:
centered difference at interior indices, one-sided difference at the
outermost layer, with an OOB neighbor contributing as if its value
equaled the center's own value. -/
def GradComponentSpec : Prop :=
  (∀ (n : ℕ) (res : ℚ) (v : ℕ → ℚ) (oob : ℕ → Bool) (i : ℕ),
    0 < i → i < n - 1 → oob (i + 1) = false → oob (i - 1) = false →
    gradComponent n res v oob i = (v (i + 1) - v (i - 1)) / (2 * res)) ∧
  (∀ (n : ℕ) (res : ℚ) (v : ℕ → ℚ) (oob : ℕ → Bool),
    2 ≤ n → oob 0 = false → oob 1 = false →
    gradComponent n res v oob 0 = (v 1 - v 0) / res) ∧
  (∀ (n : ℕ) (res : ℚ) (v : ℕ → ℚ) (oob : ℕ → Bool),
    2 ≤ n → oob (n - 1) = false → oob (n - 2) = false →
    gradComponent n res v oob (n - 1) = (v (n - 1) - v (n - 2)) / res) ∧
  (∀ (n : ℕ) (res : ℚ) (v : ℕ → ℚ) (oob : ℕ → Bool) (i : ℕ),
    0 < i → i < n - 1 → oob (i + 1) = true → oob (i - 1) = false →
    gradComponent n res v oob i = (v i - v (i - 1)) / (2 * res)) ∧
  (∀ (n : ℕ) (res : ℚ) (v : ℕ → ℚ) (oob : ℕ → Bool) (i : ℕ),
    0 < i → i < n - 1 → oob (i + 1) = false → oob (i - 1) = true →
    gradComponent n res v oob i = (v (i + 1) - v i) / (2 * res))

/-- The gradient is the per-axis finite difference assembled into a
3-vector, with no normalization. -/
def GradAssemblySpec : Prop :=
  ∀ (f : ScalarField) (i j k : ℕ),
    gradAt f (i, j, k) =
      ( gradComponent f.nx f.resolution (fun t => f.val (t, j, k))
          (fun t => f.isOOB (t, j, k)) i
      , gradComponent f.ny f.resolution (fun t => f.val (i, t, k))
          (fun t => f.isOOB (i, t, k)) j
      , gradComponent f.nz f.resolution (fun t => f.val (i, j, t))
          (fun t => f.isOOB (i, j, t)) k )

/-- C2: the Gradient Field Engine computes, at every interior voxel and
for each axis, `(sdf[i+1] - sdf[i-1]) / (2·resolution)`, assembled into
a 3-vector without normalization; at the outermost layer it uses a
one-sided difference, and an OOB neighbor contributes as if its value
equaled the center cell's own value, never the OOB sentinel. -/
theorem gradient_finite_difference : GradComponentSpec ∧ GradAssemblySpec := by
  constructor
  · refine ⟨?_, ?_, ?_, ?_, ?_⟩
    · intro n res v oob i h1 h2 ho1 ho2
      rw [gradComponent, if_neg (by omega), if_neg (by omega), if_neg (by omega)]
      simp [gradNeighbor, ho1, ho2]
    · intro n res v oob hn ho0 ho1
      rw [gradComponent, if_neg (by omega), if_pos rfl]
      simp [gradNeighbor, ho0, ho1]
    · intro n res v oob hn hoA hoB
      rcases Nat.eq_or_lt_of_le hn with h2 | h3
      · rw [gradComponent, if_neg (by omega)]
        have hz : n - 1 ≠ 0 := by omega
        rw [if_neg hz, if_pos rfl]
        simp [gradNeighbor, hoA, hoB]
      · rw [gradComponent, if_neg (by omega), if_neg (by omega), if_pos rfl]
        simp [gradNeighbor, hoA, hoB]
    · intro n res v oob i h1 h2 ho1 ho2
      rw [gradComponent, if_neg (by omega), if_neg (by omega), if_neg (by omega)]
      simp [gradNeighbor, ho1, ho2]
    · intro n res v oob i h1 h2 ho1 ho2
      rw [gradComponent, if_neg (by omega), if_neg (by omega), if_neg (by omega)]
      simp [gradNeighbor, ho1, ho2]
  · intro f i j k
    rfl

/-- Witness for C2: a concrete interior centered difference. -/
theorem gradient_finite_difference_witness :
    gradComponent 3 1 (fun _ => (0 : ℚ)) (fun _ => false) 1 = (0 - 0) / (2 * 1) :=
  gradient_finite_difference.1.1 3 1 (fun _ => (0 : ℚ)) (fun _ => false) 1
    (by omega) (by omega) rfl rfl

theorem probeIndicatesOccupied_iff {res : ℚ} {rs : List ProbeResult} :
    probeIndicatesOccupied res rs = true ↔
      ∃ r ∈ rs, r.hit = true ∧ r.distance < res / 2 := by
  simp [probeIndicatesOccupied, List.any_eq_true, Bool.and_eq_true, decide_eq_true_iff]

/-- The classification contract of the Occupancy Grid Builder at one
voxel: OOB exactly outside the navigable extent; inside it, Occupied
exactly when some probe anchored at the voxel center reports a hit at
distance below half the resolution, Free otherwise. -/
def ClassifySpec (ray : ProbePattern) (e : Extent) (msg : WriteSDF) (c : Coord) : Prop :=
  (¬ inExtent e (voxelCenter msg c) →
    (buildOccGrid ray e msg).cls c = CellClass.OOB) ∧
  (inExtent e (voxelCenter msg c) →
    (((buildOccGrid ray e msg).cls c = CellClass.Occupied) ↔
      ∃ r ∈ ray (voxelCenter msg c), r.hit = true ∧ r.distance < msg.resolution / 2) ∧
    (((buildOccGrid ray e msg).cls c = CellClass.Free) ↔
      ¬ ∃ r ∈ ray (voxelCenter msg c), r.hit = true ∧ r.distance < msg.resolution / 2))

/-- C3: for every voxel coordinate inside the requested dimensions, the
builder classifies it Occupied exactly when some probe ray anchored at
the voxel's world-space center reports a hit at distance less than half
the resolution, Free otherwise, and OOB when the center falls outside
the caller-supplied navigable extent. -/
theorem occupancy_classification (ray : ProbePattern) (e : Extent) (msg : WriteSDF)
    (c : Coord) (hc : c ∈ allCoords msg.nx msg.ny msg.nz) :
    ClassifySpec ray e msg c := by
  constructor
  · intro hout
    simp [buildOccGrid, classifyVoxel, hout]
  · intro hin
    constructor
    · rw [← probeIndicatesOccupied_iff]
      cases hp : probeIndicatesOccupied msg.resolution (ray (voxelCenter msg c)) <;>
        simp [buildOccGrid, classifyVoxel, hin, hp]
    · rw [← probeIndicatesOccupied_iff]
      cases hp : probeIndicatesOccupied msg.resolution (ray (voxelCenter msg c)) <;>
        simp [buildOccGrid, classifyVoxel, hin, hp]

/-- Witness for C3 at a concrete 1×1×1 request. -/
theorem occupancy_classification_witness : ClassifySpec rayHit extentBig msg0 (0, 0, 0) :=
  occupancy_classification rayHit extentBig msg0 (0, 0, 0) (by decide)

/-- Shape consistency of a published triple: the SDF and the gradient
field carry exactly the grid's dimensions, origin and resolution. -/
def shapeConsistent (s : Snapshot) : Prop :=
  s.sdf_.nx = s.grid.nx ∧ s.sdf_.ny = s.grid.ny ∧ s.sdf_.nz = s.grid.nz ∧
  s.sdf_gradient_.nx = s.grid.nx ∧ s.sdf_gradient_.ny = s.grid.ny ∧
  s.sdf_gradient_.nz = s.grid.nz ∧
  s.sdf_.origin = s.grid.origin ∧ s.sdf_.resolution = s.grid.resolution ∧
  s.sdf_gradient_.origin = s.grid.origin ∧
  s.sdf_gradient_.resolution = s.grid.resolution

/-- C4: every published {grid, SDF, gradient} triple has identical
dimensions, origin and resolution across its three arrays, so the
ShapeMismatch state is unreachable for published triples. -/
theorem published_triple_shape (g : OccGrid) : shapeConsistent (buildSnapshot g) :=
  ⟨rfl, rfl, rfl, rfl, rfl, rfl, rfl, rfl, rfl, rfl⟩

/-- The sentinel discipline of the distance stage at one cell: the
stages leave the grid untouched, OOB cells receive the OOB sentinel
value, and every nearest-source of either distance pass is a cell of
the seeding class (hence never an OOB cell). -/
def OobSentinelSpec (g : OccGrid) (c : Coord) : Prop :=
  (buildSnapshot g).grid = g ∧
  (g.cls c = CellClass.OOB → sdfCell g c = SdfVal.oob) ∧
  (∀ d : ℕ, nearestSqDist g c CellClass.Occupied = some d →
    ∃ c2 ∈ g.coordsList, g.cls c2 = CellClass.Occupied ∧
      g.cls c2 ≠ CellClass.OOB ∧ sqDistCells c c2 = d) ∧
  (∀ d : ℕ, nearestSqDist g c CellClass.Free = some d →
    ∃ c2 ∈ g.coordsList, g.cls c2 = CellClass.Free ∧
      g.cls c2 ≠ CellClass.OOB ∧ sqDistCells c c2 = d)

/-- C5: sentinel cells are never overwritten by the distance/gradient
stages: the grid is read-only for both stages, an OOB cell receives the
OOB sentinel distance in the SDF output, and an OOB cell is never the
nearest-obstacle source of either distance-transform pass. -/
theorem sdf_oob_sentinel_readonly (g : OccGrid) (c : Coord) : OobSentinelSpec g c := by
  refine ⟨rfl, sdfCell_of_oob, ?_, ?_⟩
  · intro d hd
    obtain ⟨c2, h2, ht2, hsq⟩ := nearestSqDist_attained hd
    refine ⟨c2, h2, ht2, ?_, hsq⟩
    rw [ht2]
    intro hcon
    exact CellClass.noConfusion hcon
  · intro d hd
    obtain ⟨c2, h2, ht2, hsq⟩ := nearestSqDist_attained hd
    refine ⟨c2, h2, ht2, ?_, hsq⟩
    rw [ht2]
    intro hcon
    exact CellClass.noConfusion hcon

/-- Witness for C5 at the grid with an OOB cell: the OOB cell's output
is the sentinel, and the occupied pass seeded from the Occupied cell. -/
theorem sdf_oob_sentinel_readonly_witness :
    sdfCell demoGridOOB (0, 0, 0) = SdfVal.oob ∧
    (∃ c2 ∈ demoGridOOB.coordsList, demoGridOOB.cls c2 = CellClass.Occupied ∧
      demoGridOOB.cls c2 ≠ CellClass.OOB ∧ sqDistCells (2, 0, 0) c2 = 1) :=
  ⟨(sdf_oob_sentinel_readonly demoGridOOB (0, 0, 0)).2.1 (by decide),
   (sdf_oob_sentinel_readonly demoGridOOB (2, 0, 0)).2.2.1 1 (by decide)⟩

/-- C6: the build pipeline is deterministic: two builds run against an
identical scene snapshot (equal probe patterns and extent) with the same
request produce identical Occupancy Grids, identical SDFs and identical
session results, and for a fixed Occupancy Grid the SDF computation is
exactly reproducible. -/
theorem build_deterministic (ray1 ray2 : ProbePattern) (e1 e2 : Extent)
    (m1 m2 : WriteSDF) (hray : ray1 = ray2) (he : e1 = e2) (hm : m1 = m2) :
    buildOccGrid ray1 e1 m1 = buildOccGrid ray2 e2 m2 ∧
    computeSDF (buildOccGrid ray1 e1 m1) = computeSDF (buildOccGrid ray2 e2 m2) ∧
    (∀ s : MapSession, OnWriteSDF ray1 e1 s m1 = OnWriteSDF ray2 e2 s m2) ∧
    (∀ g1 g2 : OccGrid, g1 = g2 → computeSDF g1 = computeSDF g2) := by
  subst hray he hm
  exact ⟨rfl, rfl, fun s => rfl, fun g1 g2 hg => by rw [hg]⟩

/-- Witness for C6 at a concrete probe pattern, extent and request. -/
theorem build_deterministic_witness :
    buildOccGrid rayHit extentBig msg0 = buildOccGrid rayHit extentBig msg0 ∧
    computeSDF (buildOccGrid rayHit extentBig msg0) =
      computeSDF (buildOccGrid rayHit extentBig msg0) ∧
    (∀ s : MapSession, OnWriteSDF rayHit extentBig s msg0 = OnWriteSDF rayHit extentBig s msg0) ∧
    (∀ g1 g2 : OccGrid, g1 = g2 → computeSDF g1 = computeSDF g2) :=
  build_deterministic rayHit rayHit extentBig extentBig msg0 msg0 rfl rfl rfl

/-- The frame property of a failed build: the published snapshot is
untouched and a failing build in progress returns the session to idle;
an inbound request likewise never destroys the published snapshot. -/
def FailurePreserves (s : MapSession) : Prop :=
  (step s Event.buildFailure).snapshot = s.snapshot ∧
  (s.phase = Phase.building → (step s Event.buildFailure).phase = Phase.idle) ∧
  ∀ msg : WriteSDF, (step s (Event.request msg)).snapshot = s.snapshot

/-- C7: a build that fails with a probe/geometry error leaves the
previously published snapshot completely unchanged (builds work on
fresh storage and never mutate the published snapshot in place). -/
theorem failed_build_preserves_snapshot (s : MapSession) : FailurePreserves s := by
  refine ⟨?_, ?_, ?_⟩
  · cases hp : s.phase <;> simp [step, hp]
  · intro hp
    simp [step, hp]
  · intro msg
    simp [step]

/-- Witness for C7 at a concrete building-phase session. -/
theorem failed_build_preserves_snapshot_witness :
    FailurePreserves { phase := Phase.building, generation := 1, snapshot := none } ∧
    (step { phase := Phase.building, generation := 1, snapshot := none }
      Event.buildFailure).phase = Phase.idle :=
  ⟨failed_build_preserves_snapshot _,
   (failed_build_preserves_snapshot
     { phase := Phase.building, generation := 1, snapshot := none }).2.1 rfl⟩

/-- The query contract of one session state: queries succeed (serving
the current snapshot) exactly while `ready`, and fail with NotReady in
`idle` or `building`. -/
def QueryReadySpec (s : MapSession) : Prop :=
  (s.phase = Phase.ready → ∃ snap, s.snapshot = some snap ∧ query s = Except.ok snap) ∧
  (s.phase ≠ Phase.ready → query s = Except.error QueryError.notReady)

theorem foldl_step_inv (P : MapSession → Prop)
    (hstep : ∀ s e, P s → P (step s e)) :
    ∀ (es : List Event) (s : MapSession), P s → P (es.foldl step s) := by
  intro es
  induction es with
  | nil => intro s h; exact h
  | cons e rest ih => intro s h; exact ih (step s e) (hstep s e h)

theorem run_ready_snapshot (es : List Event) :
    (run es).phase = Phase.ready → ∃ snap, (run es).snapshot = some snap := by
  refine foldl_step_inv
    (fun s => s.phase = Phase.ready → ∃ snap, s.snapshot = some snap)
    (fun s e hP => ?_) es initSession ?_
  · cases e with
    | request msg =>
      intro hr
      simp [step] at hr
    | buildSuccess g =>
      cases hp : s.phase with
      | idle =>
        have hs : step s (Event.buildSuccess g) = s := by simp [step, hp]
        rw [hs]
        exact hP
      | building =>
        have hs : step s (Event.buildSuccess g) =
            { phase := Phase.ready, generation := s.generation,
              snapshot := some (buildSnapshot g) } := by simp [step, hp]
        rw [hs]
        intro hr
        exact ⟨buildSnapshot g, rfl⟩
      | ready =>
        have hs : step s (Event.buildSuccess g) = s := by simp [step, hp]
        rw [hs]
        exact hP
    | buildFailure =>
      cases hp : s.phase with
      | idle =>
        have hs : step s Event.buildFailure = s := by simp [step, hp]
        rw [hs]
        exact hP
      | building =>
        have hs : step s Event.buildFailure =
            { phase := Phase.idle, generation := s.generation,
              snapshot := s.snapshot } := by simp [step, hp]
        rw [hs]
        intro hr
        exact Phase.noConfusion hr
      | ready =>
        have hs : step s Event.buildFailure = s := by simp [step, hp]
        rw [hs]
        exact hP
  · intro hr
    simp [initSession] at hr

/-- C8: every query issued while the session is idle or building fails
with NotReady; queries succeed, serving the current snapshot, exactly
when the session is ready. -/
theorem query_iff_ready (es : List Event) : QueryReadySpec (run es) := by
  constructor
  · intro hr
    obtain ⟨snap, hsnap⟩ := run_ready_snapshot es hr
    exact ⟨snap, hsnap, by simp [query, hsnap, hr]⟩
  · intro hnr
    cases hsnap : (run es).snapshot with
    | none => simp [query, hsnap]
    | some snap =>
      cases hp : (run es).phase with
      | idle => simp [query, hsnap, hp]
      | building => simp [query, hsnap, hp]
      | ready => exact absurd hp hnr

/-- A request followed by a successful build. -/
def demoEvents : List Event := [Event.request msg0, Event.buildSuccess demoGrid]

/-- Witness for C8: after a completed build the session is ready and a
query serves the published snapshot. -/
theorem query_iff_ready_witness :
    ∃ snap, (run demoEvents).snapshot = some snap ∧
      query (run demoEvents) = Except.ok snap :=
  (query_iff_ready demoEvents).1 rfl

/-- Counterexample to C9 as stated: at a request whose payload carries
sentinel cells ⟨1/2, 7⟩ and ⟨3/4, 9⟩, the cells written for an OOB voxel
and for an occupied voxel are the plugin's static constants, not the
payload values. -/
theorem request_payload_sentinels_counterexample :
    (buildOccGrid rayNone extentEmpty msg0).cls (0, 0, 0) = CellClass.OOB ∧
    collisionMapCell rayNone extentEmpty msg0 (0, 0, 0) ≠ msg0.oob_value ∧
    (buildOccGrid rayHit extentBig msg0).cls (0, 0, 0) = CellClass.Occupied ∧
    collisionMapCell rayHit extentBig msg0 (0, 0, 0) ≠ msg0.occupied_value := by
  have hout : ¬ inExtent extentEmpty (voxelCenter msg0 (0, 0, 0)) := by
    intro h
    obtain ⟨h1, -⟩ := h
    norm_num [voxelCenter, extentEmpty, msg0] at h1
  have hin : inExtent extentBig (voxelCenter msg0 (0, 0, 0)) := by
    norm_num [inExtent, voxelCenter, extentBig, msg0]
  have hprobe : probeIndicatesOccupied msg0.resolution
      (rayHit (voxelCenter msg0 (0, 0, 0))) = true := by
    norm_num [probeIndicatesOccupied, rayHit, msg0]
  have hcls1 : (buildOccGrid rayNone extentEmpty msg0).cls (0, 0, 0) = CellClass.OOB := by
    simp only [buildOccGrid, classifyVoxel]
    rw [if_neg hout]
  have hcls2 : (buildOccGrid rayHit extentBig msg0).cls (0, 0, 0) = CellClass.Occupied := by
    simp only [buildOccGrid, classifyVoxel]
    rw [if_pos hin, if_pos hprobe]
  refine ⟨hcls1, ?_, hcls2, ?_⟩
  · simp only [collisionMapCell, hcls1]
    simp [CollisionMapPlugin.oob_value, msg0]
  · simp only [collisionMapCell, hcls2]
    simp [CollisionMapPlugin.occupied_value, msg0]

/-- The sentinel cells actually written, for any request: the plugin's
static class constants. -/
def StaticSentinelSpec (ray : ProbePattern) (e : Extent) (msg : WriteSDF) (c : Coord) :
    Prop :=
  ((buildOccGrid ray e msg).cls c = CellClass.OOB →
    collisionMapCell ray e msg c = CollisionMapPlugin.oob_value) ∧
  ((buildOccGrid ray e msg).cls c = CellClass.Occupied →
    collisionMapCell ray e msg c = CollisionMapPlugin.occupied_value)

/-- C9 amended: for every build request, the sentinel values written for
OOB voxels and fully-occupied voxels are the plugin's `static const`
members `oob_value` and `occupied_value`, independent of the request
payload. -/
theorem sentinels_are_static (ray : ProbePattern) (e : Extent) (msg : WriteSDF)
    (c : Coord) : StaticSentinelSpec ray e msg c := by
  constructor
  · intro h
    simp [collisionMapCell, h]
  · intro h
    simp [collisionMapCell, h]

/-- Witness for the amended C9: the cell written for the OOB voxel of
the concrete request is the static OOB sentinel. -/
theorem sentinels_are_static_witness :
    collisionMapCell rayNone extentEmpty msg0 (0, 0, 0) = CollisionMapPlugin.oob_value :=
  (sentinels_are_static rayNone extentEmpty msg0 (0, 0, 0)).1 (by
    have hout : ¬ inExtent extentEmpty (voxelCenter msg0 (0, 0, 0)) := by
      intro h
      obtain ⟨h1, -⟩ := h
      norm_num [voxelCenter, extentEmpty, msg0] at h1
    simp only [buildOccGrid, classifyVoxel]
    rw [if_neg hout])

theorem noSuccess_foldl (es : List Event) :
    ∀ s : MapSession, (∀ g, Event.buildSuccess g ∉ es) → s.phase ≠ Phase.ready →
    (es.foldl step s).phase ≠ Phase.ready := by
  induction es with
  | nil => intro s h hs; exact hs
  | cons e rest ih =>
    intro s h hs
    apply ih
    · intro g hg
      exact h g (List.mem_cons_of_mem e hg)
    · cases e with
      | request msg => simp [step]
      | buildSuccess g => exact absurd (List.mem_cons_self _ _) (h g)
      | buildFailure =>
        cases hp : s.phase with
        | idle => simp [step, hp]
        | building => simp [step, hp]
        | ready => exact absurd hp hs

theorem query_ok_ready {s : MapSession} {snap : Snapshot}
    (h : query s = Except.ok snap) : s.phase = Phase.ready := by
  cases hsnap : s.snapshot <;> cases hp : s.phase <;>
    first
      | rfl
      | simp [query, hsnap, hp] at h

/-- Cold-start behavior of the session: the readiness flag starts false,
a query before any build fails with NotReady, and every ready state (and
every served query) is reachable only after at least one completed
build. -/
def ColdStartSpec : Prop :=
  initSession.ready_ = false ∧
  query initSession = Except.error QueryError.notReady ∧
  ∀ es : List Event,
    ((run es).phase = Phase.ready → ∃ g, Event.buildSuccess g ∈ es) ∧
    (∀ snap, query (run es) = Except.ok snap → ∃ g, Event.buildSuccess g ∈ es)

/-- C10: the readiness flag is initialized to false (header:
`bool ready_{false}`), so no snapshot is servable until the first build
completes, and every data-serving state is reachable only after at least
one completed build. -/
theorem ready_only_after_build : ColdStartSpec := by
  refine ⟨rfl, rfl, ?_⟩
  intro es
  have h1 : (run es).phase = Phase.ready → ∃ g, Event.buildSuccess g ∈ es := by
    intro hr
    by_contra hno
    push_neg at hno
    exact noSuccess_foldl es initSession (fun g => hno g) (by simp [initSession]) hr
  exact ⟨h1, fun snap h => h1 (query_ok_ready h)⟩

/-- Witness for C10: the ready state reached by `demoEvents` indeed
contains a completed build. -/
theorem ready_only_after_build_witness :
    ∃ g, Event.buildSuccess g ∈ demoEvents :=
  (ready_only_after_build.2.2 demoEvents).1 rfl
